import Mathlib

/-!
Verification of the realtime subscription/reconnection manager of
`src/hooks/useSupabaseSubscription.ts` (repository `revothan/menyapa`).

The hook is embedded shallowly as a state machine: the React refs and state
cells become fields of `ManagerState`, timer/channel resources are tracked as
lists of allocated-but-not-released identifiers (so "at most one live
resource" is a provable invariant rather than a typing artefact), and each
callback body of the source becomes a Lean function on `ManagerState`.
User-visible `toast` calls are logged in the `toasts` field.
-/

namespace Menyapa

/-- Kind of a user-visible toast notification (`toast.error` / `toast.success`). -/
inductive ToastKind
  | error
  | success
deriving DecidableEq, Repr

/-- A user-visible toast notification: kind and leading message text. -/
structure Toast where
  kind : ToastKind
  text : String
deriving DecidableEq, Repr

/-- `INITIAL_RETRY_DELAY` from the source (ms). -/
def INITIAL_RETRY_DELAY : Nat := 1000

/-- `MAX_RETRY_DELAY` from the source (ms). -/
def MAX_RETRY_DELAY : Nat := 30000

/-- `MAX_RETRY_ATTEMPTS` from the source. -/
def MAX_RETRY_ATTEMPTS : Nat := 5

/-- The terminal toast emitted by `handleReconnection` when no session id is
known or the retry counter has reached `MAX_RETRY_ATTEMPTS`. -/
def toastTerminal : Toast :=
  ⟨ToastKind.error, "Unable to maintain connection. Please refresh the page."⟩

/-- Toast emitted by the channel system-error listener. -/
def toastConnLost : Toast :=
  ⟨ToastKind.error, "Connection lost. Attempting to reconnect..."⟩

/-- Toast emitted on a `CHANNEL_ERROR` status. -/
def toastChannelError : Toast :=
  ⟨ToastKind.error, "Connection error"⟩

/-- Success toast emitted by a manual `reconnect()`. -/
def toastReconnecting : Toast :=
  ⟨ToastKind.success, "Attempting to reconnect..."⟩

/-- The mutable state of one `useSupabaseSubscription` hook instance.

`retryCount` and `isConnected` are the two `useState` cells; `channelRef`,
`timeoutRef` and `heartbeatIntervalRef` are the three `useRef` cells (refs
hold resource identifiers, `timeoutRef` keeps a stale id after its timer
fires, exactly as the source never resets it).  `openChannels`,
`liveHeartbeats` and `pendingTimeouts` track the environment: channels
created by `supabase.channel` and not yet passed to `removeChannel`,
intervals set by `setInterval` and not yet cleared, and timeouts scheduled
by `setTimeout` that have neither fired nor been cleared (paired with their
delay in ms).  `nextId` supplies fresh resource identifiers, `toasts` logs
emitted notifications, `setupCalls` counts invocations of
`setupSubscription`. -/
@[ext]
structure ManagerState where
  retryCount : Nat
  isConnected : Bool
  channelRef : Option Nat
  timeoutRef : Option Nat
  heartbeatRef : Option Nat
  openChannels : List Nat
  liveHeartbeats : List Nat
  pendingTimeouts : List (Nat × Nat)
  nextId : Nat
  toasts : List Toast
  setupCalls : Nat
deriving DecidableEq, Repr

/-- The state of a freshly mounted hook instance. -/
def initState : ManagerState :=
  { retryCount := 0, isConnected := false, channelRef := none,
    timeoutRef := none, heartbeatRef := none, openChannels := [],
    liveHeartbeats := [], pendingTimeouts := [], nextId := 0,
    toasts := [], setupCalls := 0 }

/-- `clearHeartbeat`: clear the heartbeat interval if one is set and reset
the ref, as in the source. -/
def clearHeartbeat (s : ManagerState) : ManagerState :=
  match s.heartbeatRef with
  | some h =>
      { s with liveHeartbeats := s.liveHeartbeats.erase h, heartbeatRef := none }
  | none => s

/-- The backoff delay computed by `handleReconnection`:
`Math.min(INITIAL_RETRY_DELAY * Math.pow(2, retryCount), MAX_RETRY_DELAY)`. -/
def backoffDelay (n : Nat) : Nat :=
  min (INITIAL_RETRY_DELAY * 2 ^ n) MAX_RETRY_DELAY

/-- The `clearTimeout(timeoutRef.current)` step of `handleReconnection` and
of the unmount cleanup: cancels the timeout named by the ref, if still
pending.  The ref itself is not reset (the source never clears it). -/
def clearReconnectTimeout (s : ManagerState) : ManagerState :=
  match s.timeoutRef with
  | some t =>
      { s with pendingTimeouts := s.pendingTimeouts.filter (fun p => p.1 != t) }
  | none => s

/-- `handleReconnection`: if no session id is known or the retry counter has
reached `MAX_RETRY_ATTEMPTS`, emit the terminal toast and return; otherwise
compute the backoff delay from the current counter, clear any pending
reconnect timeout, and schedule a fresh one.  The counter itself is only
incremented later, inside the timeout callback (`fireReconnectTimeout`). -/
def handleReconnection (sessionId : Option String) (s : ManagerState) : ManagerState :=
  match sessionId with
  | none => { s with toasts := s.toasts ++ [toastTerminal] }
  | some _ =>
      if MAX_RETRY_ATTEMPTS ≤ s.retryCount then
        { s with toasts := s.toasts ++ [toastTerminal] }
      else
        let d := backoffDelay s.retryCount
        let s1 := clearReconnectTimeout s
        { s1 with
            timeoutRef := some s1.nextId,
            pendingTimeouts := s1.pendingTimeouts ++ [(s1.nextId, d)],
            nextId := s1.nextId + 1 }

/-- `startHeartbeat`: clear any existing heartbeat interval, then install a
fresh 30000 ms interval. -/
def startHeartbeat (s : ManagerState) : ManagerState :=
  let s1 := clearHeartbeat s
  { s1 with
      heartbeatRef := some s1.nextId,
      liveHeartbeats := s1.liveHeartbeats ++ [s1.nextId],
      nextId := s1.nextId + 1 }

/-- The `if (channelRef.current) { supabase.removeChannel(...); channelRef.current = null }`
snippet shared by `setupSubscription`, the reconnect-timeout callback,
`reconnect` and the unmount cleanup. -/
def removeChannelIfAny (s : ManagerState) : ManagerState :=
  match s.channelRef with
  | some c =>
      { s with openChannels := s.openChannels.erase c, channelRef := none }
  | none => s

/-- `setupSubscription(sid)`: if a channel already exists, remove it and
clear the heartbeat; then create a fresh channel bound to the session and
store it in the ref.  The topic string is not tracked by the model.
`setupCalls` counts invocations. -/
def setupSubscription (_sid : String) (s : ManagerState) : ManagerState :=
  let s1 :=
    match s.channelRef with
    | some _ => clearHeartbeat (removeChannelIfAny s)
    | none => s
  { s1 with
      channelRef := some s1.nextId,
      openChannels := s1.openChannels ++ [s1.nextId],
      nextId := s1.nextId + 1,
      setupCalls := s1.setupCalls + 1 }

/-- The three statuses delivered to the `subscribe` callback. -/
inductive SubStatus
  | SUBSCRIBED
  | CLOSED
  | CHANNEL_ERROR
deriving DecidableEq, Repr

/-- The `subscribe` status callback of `setupSubscription`:
`SUBSCRIBED` marks connected, resets the retry counter and starts the
heartbeat; `CLOSED` marks disconnected and calls `handleReconnection`;
`CHANNEL_ERROR` additionally emits an error toast. -/
def onStatus (sessionId : Option String) (st : SubStatus) (s : ManagerState) : ManagerState :=
  match st with
  | SubStatus.SUBSCRIBED =>
      startHeartbeat { s with isConnected := true, retryCount := 0 }
  | SubStatus.CLOSED =>
      handleReconnection sessionId { s with isConnected := false }
  | SubStatus.CHANNEL_ERROR =>
      handleReconnection sessionId
        { s with isConnected := false, toasts := s.toasts ++ [toastChannelError] }

/-- The `.on('system', { event: 'error' }, ...)` listener: mark
disconnected, emit the connection-lost toast, call `handleReconnection`. -/
def onSystemError (sessionId : Option String) (s : ManagerState) : ManagerState :=
  handleReconnection sessionId
    { s with isConnected := false, toasts := s.toasts ++ [toastConnLost] }

/-- One tick of the heartbeat interval.  If the channel reports state
`closed`, the source only clears the heartbeat and returns.  Otherwise a
heartbeat is sent; if the send fails (the `.catch` branch), the heartbeat is
cleared, the connected flag dropped, and `handleReconnection` is called.  A
successful send changes nothing. -/
def heartbeatTick (sessionId : Option String) (channelClosed sendFails : Bool)
    (s : ManagerState) : ManagerState :=
  if channelClosed then
    clearHeartbeat s
  else if sendFails then
    handleReconnection sessionId { (clearHeartbeat s) with isConnected := false }
  else s

/-- Expiry of the pending reconnect timeout.  The callback increments the
retry counter, removes the existing channel if any, and calls
`setupSubscription` with the captured session id.  With no pending timeout
nothing can fire.  (A pending timeout only exists when a session id was
known at scheduling time; the `none` branch merely consumes the timer.) -/
def fireReconnectTimeout (sessionId : Option String) (s : ManagerState) : ManagerState :=
  match s.pendingTimeouts with
  | [] => s
  | _ :: rest =>
      match sessionId with
      | none => { s with pendingTimeouts := rest }
      | some sid =>
          let s1 := { s with pendingTimeouts := rest, retryCount := s.retryCount + 1 }
          setupSubscription sid (removeChannelIfAny s1)

/-- `reconnect()`: a no-op without a session id; otherwise reset the retry
counter, drop the connected flag, remove the existing channel if any, clear
the heartbeat, run `setupSubscription`, and emit the success toast. -/
def reconnect (sessionId : Option String) (s : ManagerState) : ManagerState :=
  match sessionId with
  | none => s
  | some sid =>
      let s1 := { s with retryCount := 0, isConnected := false }
      let s2 := clearHeartbeat (removeChannelIfAny s1)
      let s3 := setupSubscription sid s2
      { s3 with toasts := s3.toasts ++ [toastReconnecting] }

/-- The unmount cleanup of the hook: clear the pending reconnect timeout,
clear the heartbeat, remove the channel if any. -/
def cleanup (s : ManagerState) : ManagerState :=
  removeChannelIfAny (clearHeartbeat (clearReconnectTimeout s))

/-- The role allow-list applied to inbound `postgres_changes` INSERT
payloads. -/
def allowedRoles : List String := ["user", "assistant", "owner"]

/-- The `postgres_changes` INSERT callback, restricted to what it does with
the payload role: a role outside the allow-list makes the handler return
early (`false` = rejected by validation); in either case the handler
touches no manager state. -/
def onMessageInsert (role : String) (s : ManagerState) : ManagerState × Bool :=
  if allowedRoles.contains role then (s, true) else (s, false)

/-- External events that can reach one hook instance: a `setupSubscription`
call, a subscribe-status delivery, a system-error delivery, a heartbeat
interval tick, expiry of the pending reconnect timeout, a manual
`reconnect()` request, and an inbound message-insert payload. -/
inductive Event
  | setup (sid : String)
  | status (st : SubStatus)
  | sysError
  | hbTick (channelClosed sendFails : Bool)
  | fireTimeout
  | reconnectReq
  | msgInsert (role : String)
deriving DecidableEq, Repr

/-- Dispatch one event against the hook's ambient session id. -/
def step (sessionId : Option String) (e : Event) (s : ManagerState) : ManagerState :=
  match e with
  | Event.setup sid => setupSubscription sid s
  | Event.status st => onStatus sessionId st s
  | Event.sysError => onSystemError sessionId s
  | Event.hbTick c f => heartbeatTick sessionId c f s
  | Event.fireTimeout => fireReconnectTimeout sessionId s
  | Event.reconnectReq => reconnect sessionId s
  | Event.msgInsert role => (onMessageInsert role s).1

/-- Run a sequence of events from a state. -/
def run (sessionId : Option String) (tr : List Event) (s : ManagerState) : ManagerState :=
  tr.foldl (fun st e => step sessionId e st) s

/-- The resource invariant of one hook instance: the lists of live
environment resources agree with the refs (so each is at most a singleton),
every pending reconnect timeout is the one named by `timeoutRef`, and every
open channel id is below the fresh-id counter. -/
def Inv (s : ManagerState) : Prop :=
  s.openChannels = s.channelRef.toList ∧
  s.liveHeartbeats = s.heartbeatRef.toList ∧
  (∀ p ∈ s.pendingTimeouts, s.timeoutRef = some p.1) ∧
  s.pendingTimeouts.length ≤ 1 ∧
  (∀ c ∈ s.openChannels, c < s.nextId)

example : Inv initState := by
  refine ⟨rfl, rfl, ?_, ?_, ?_⟩ <;> simp [initState]

/-! ### Field bookkeeping for the primitive operations -/

@[simp]
lemma clearHeartbeat_retryCount (s : ManagerState) :
    (clearHeartbeat s).retryCount = s.retryCount := by
  cases h : s.heartbeatRef <;> simp [clearHeartbeat, h]

@[simp]
lemma clearHeartbeat_isConnected (s : ManagerState) :
    (clearHeartbeat s).isConnected = s.isConnected := by
  cases h : s.heartbeatRef <;> simp [clearHeartbeat, h]

@[simp]
lemma clearHeartbeat_channelRef (s : ManagerState) :
    (clearHeartbeat s).channelRef = s.channelRef := by
  cases h : s.heartbeatRef <;> simp [clearHeartbeat, h]

@[simp]
lemma clearHeartbeat_timeoutRef (s : ManagerState) :
    (clearHeartbeat s).timeoutRef = s.timeoutRef := by
  cases h : s.heartbeatRef <;> simp [clearHeartbeat, h]

@[simp]
lemma clearHeartbeat_heartbeatRef (s : ManagerState) :
    (clearHeartbeat s).heartbeatRef = none := by
  cases h : s.heartbeatRef <;> simp [clearHeartbeat, h]

@[simp]
lemma clearHeartbeat_openChannels (s : ManagerState) :
    (clearHeartbeat s).openChannels = s.openChannels := by
  cases h : s.heartbeatRef <;> simp [clearHeartbeat, h]

@[simp]
lemma clearHeartbeat_pendingTimeouts (s : ManagerState) :
    (clearHeartbeat s).pendingTimeouts = s.pendingTimeouts := by
  cases h : s.heartbeatRef <;> simp [clearHeartbeat, h]

@[simp]
lemma clearHeartbeat_nextId (s : ManagerState) :
    (clearHeartbeat s).nextId = s.nextId := by
  cases h : s.heartbeatRef <;> simp [clearHeartbeat, h]

@[simp]
lemma clearHeartbeat_toasts (s : ManagerState) :
    (clearHeartbeat s).toasts = s.toasts := by
  cases h : s.heartbeatRef <;> simp [clearHeartbeat, h]

@[simp]
lemma clearHeartbeat_setupCalls (s : ManagerState) :
    (clearHeartbeat s).setupCalls = s.setupCalls := by
  cases h : s.heartbeatRef <;> simp [clearHeartbeat, h]

lemma clearHeartbeat_live_of (s : ManagerState)
    (h2 : s.liveHeartbeats = s.heartbeatRef.toList) :
    (clearHeartbeat s).liveHeartbeats = [] := by
  cases h : s.heartbeatRef <;> simp_all [clearHeartbeat, h]

@[simp]
lemma clearReconnectTimeout_retryCount (s : ManagerState) :
    (clearReconnectTimeout s).retryCount = s.retryCount := by
  cases h : s.timeoutRef <;> simp [clearReconnectTimeout, h]

@[simp]
lemma clearReconnectTimeout_isConnected (s : ManagerState) :
    (clearReconnectTimeout s).isConnected = s.isConnected := by
  cases h : s.timeoutRef <;> simp [clearReconnectTimeout, h]

@[simp]
lemma clearReconnectTimeout_channelRef (s : ManagerState) :
    (clearReconnectTimeout s).channelRef = s.channelRef := by
  cases h : s.timeoutRef <;> simp [clearReconnectTimeout, h]

@[simp]
lemma clearReconnectTimeout_timeoutRef (s : ManagerState) :
    (clearReconnectTimeout s).timeoutRef = s.timeoutRef := by
  cases h : s.timeoutRef <;> simp [clearReconnectTimeout, h]

@[simp]
lemma clearReconnectTimeout_heartbeatRef (s : ManagerState) :
    (clearReconnectTimeout s).heartbeatRef = s.heartbeatRef := by
  cases h : s.timeoutRef <;> simp [clearReconnectTimeout, h]

@[simp]
lemma clearReconnectTimeout_openChannels (s : ManagerState) :
    (clearReconnectTimeout s).openChannels = s.openChannels := by
  cases h : s.timeoutRef <;> simp [clearReconnectTimeout, h]

@[simp]
lemma clearReconnectTimeout_liveHeartbeats (s : ManagerState) :
    (clearReconnectTimeout s).liveHeartbeats = s.liveHeartbeats := by
  cases h : s.timeoutRef <;> simp [clearReconnectTimeout, h]

@[simp]
lemma clearReconnectTimeout_nextId (s : ManagerState) :
    (clearReconnectTimeout s).nextId = s.nextId := by
  cases h : s.timeoutRef <;> simp [clearReconnectTimeout, h]

@[simp]
lemma clearReconnectTimeout_toasts (s : ManagerState) :
    (clearReconnectTimeout s).toasts = s.toasts := by
  cases h : s.timeoutRef <;> simp [clearReconnectTimeout, h]

@[simp]
lemma clearReconnectTimeout_setupCalls (s : ManagerState) :
    (clearReconnectTimeout s).setupCalls = s.setupCalls := by
  cases h : s.timeoutRef <;> simp [clearReconnectTimeout, h]

lemma clearReconnectTimeout_pending_of (s : ManagerState)
    (h3 : ∀ p ∈ s.pendingTimeouts, s.timeoutRef = some p.1) :
    (clearReconnectTimeout s).pendingTimeouts = [] := by
  cases h : s.timeoutRef with
  | none =>
      simp only [clearReconnectTimeout, h]
      cases hp : s.pendingTimeouts with
      | nil => rfl
      | cons p l =>
          have := h3 p (by rw [hp]; exact List.mem_cons_self p l)
          rw [h] at this
          exact absurd this (by simp)
  | some t =>
      simp only [clearReconnectTimeout, h]
      rw [List.filter_eq_nil_iff]
      intro p hp
      have := h3 p hp
      rw [h] at this
      simp_all

@[simp]
lemma removeChannelIfAny_retryCount (s : ManagerState) :
    (removeChannelIfAny s).retryCount = s.retryCount := by
  cases h : s.channelRef <;> simp [removeChannelIfAny, h]

@[simp]
lemma removeChannelIfAny_isConnected (s : ManagerState) :
    (removeChannelIfAny s).isConnected = s.isConnected := by
  cases h : s.channelRef <;> simp [removeChannelIfAny, h]

@[simp]
lemma removeChannelIfAny_channelRef (s : ManagerState) :
    (removeChannelIfAny s).channelRef = none := by
  cases h : s.channelRef <;> simp [removeChannelIfAny, h]

@[simp]
lemma removeChannelIfAny_timeoutRef (s : ManagerState) :
    (removeChannelIfAny s).timeoutRef = s.timeoutRef := by
  cases h : s.channelRef <;> simp [removeChannelIfAny, h]

@[simp]
lemma removeChannelIfAny_heartbeatRef (s : ManagerState) :
    (removeChannelIfAny s).heartbeatRef = s.heartbeatRef := by
  cases h : s.channelRef <;> simp [removeChannelIfAny, h]

@[simp]
lemma removeChannelIfAny_liveHeartbeats (s : ManagerState) :
    (removeChannelIfAny s).liveHeartbeats = s.liveHeartbeats := by
  cases h : s.channelRef <;> simp [removeChannelIfAny, h]

@[simp]
lemma removeChannelIfAny_pendingTimeouts (s : ManagerState) :
    (removeChannelIfAny s).pendingTimeouts = s.pendingTimeouts := by
  cases h : s.channelRef <;> simp [removeChannelIfAny, h]

@[simp]
lemma removeChannelIfAny_nextId (s : ManagerState) :
    (removeChannelIfAny s).nextId = s.nextId := by
  cases h : s.channelRef <;> simp [removeChannelIfAny, h]

@[simp]
lemma removeChannelIfAny_toasts (s : ManagerState) :
    (removeChannelIfAny s).toasts = s.toasts := by
  cases h : s.channelRef <;> simp [removeChannelIfAny, h]

@[simp]
lemma removeChannelIfAny_setupCalls (s : ManagerState) :
    (removeChannelIfAny s).setupCalls = s.setupCalls := by
  cases h : s.channelRef <;> simp [removeChannelIfAny, h]

lemma removeChannelIfAny_open_of (s : ManagerState)
    (h1 : s.openChannels = s.channelRef.toList) :
    (removeChannelIfAny s).openChannels = [] := by
  cases h : s.channelRef <;> simp_all [removeChannelIfAny, h]

/-! ### Characterisation of the composite operations -/

lemma handleReconnection_none_eq (s : ManagerState) :
    handleReconnection none s = { s with toasts := s.toasts ++ [toastTerminal] } := rfl

lemma handleReconnection_exhausted_eq (sid : Option String) (s : ManagerState)
    (h : MAX_RETRY_ATTEMPTS ≤ s.retryCount) :
    handleReconnection sid s = { s with toasts := s.toasts ++ [toastTerminal] } := by
  cases sid with
  | none => rfl
  | some a => simp only [handleReconnection, if_pos h]

lemma handleReconnection_schedule_eq (sid : String) (s : ManagerState)
    (h3 : ∀ p ∈ s.pendingTimeouts, s.timeoutRef = some p.1)
    (h5 : s.retryCount < MAX_RETRY_ATTEMPTS) :
    handleReconnection (some sid) s =
      { s with timeoutRef := some s.nextId,
               pendingTimeouts := [(s.nextId, backoffDelay s.retryCount)],
               nextId := s.nextId + 1 } := by
  have hn : ¬ MAX_RETRY_ATTEMPTS ≤ s.retryCount := by omega
  have hp := clearReconnectTimeout_pending_of s h3
  simp only [handleReconnection, if_neg hn]
  ext <;> simp [hp]

lemma startHeartbeat_eq (s : ManagerState)
    (h2 : s.liveHeartbeats = s.heartbeatRef.toList) :
    startHeartbeat s =
      { s with heartbeatRef := some s.nextId,
               liveHeartbeats := [s.nextId],
               nextId := s.nextId + 1 } := by
  have hl := clearHeartbeat_live_of s h2
  simp only [startHeartbeat]
  ext <;> simp [hl]

@[simp]
lemma setupSubscription_retryCount (sid : String) (s : ManagerState) :
    (setupSubscription sid s).retryCount = s.retryCount := by
  cases h : s.channelRef <;> simp [setupSubscription, h]

@[simp]
lemma setupSubscription_isConnected (sid : String) (s : ManagerState) :
    (setupSubscription sid s).isConnected = s.isConnected := by
  cases h : s.channelRef <;> simp [setupSubscription, h]

@[simp]
lemma setupSubscription_timeoutRef (sid : String) (s : ManagerState) :
    (setupSubscription sid s).timeoutRef = s.timeoutRef := by
  cases h : s.channelRef <;> simp [setupSubscription, h]

@[simp]
lemma setupSubscription_pendingTimeouts (sid : String) (s : ManagerState) :
    (setupSubscription sid s).pendingTimeouts = s.pendingTimeouts := by
  cases h : s.channelRef <;> simp [setupSubscription, h]

@[simp]
lemma setupSubscription_toasts (sid : String) (s : ManagerState) :
    (setupSubscription sid s).toasts = s.toasts := by
  cases h : s.channelRef <;> simp [setupSubscription, h]

@[simp]
lemma setupSubscription_nextId (sid : String) (s : ManagerState) :
    (setupSubscription sid s).nextId = s.nextId + 1 := by
  cases h : s.channelRef <;> simp [setupSubscription, h]

@[simp]
lemma setupSubscription_setupCalls (sid : String) (s : ManagerState) :
    (setupSubscription sid s).setupCalls = s.setupCalls + 1 := by
  cases h : s.channelRef <;> simp [setupSubscription, h]

@[simp]
lemma setupSubscription_channelRef (sid : String) (s : ManagerState) :
    (setupSubscription sid s).channelRef = some s.nextId := by
  cases h : s.channelRef <;> simp [setupSubscription, h]

lemma setupSubscription_open_of (sid : String) (s : ManagerState)
    (h1 : s.openChannels = s.channelRef.toList) :
    (setupSubscription sid s).openChannels = [s.nextId] := by
  cases h : s.channelRef <;> simp_all [setupSubscription, h, removeChannelIfAny, h1]

lemma setupSubscription_live_of (sid : String) (s : ManagerState)
    (h2 : s.liveHeartbeats = s.heartbeatRef.toList) :
    (setupSubscription sid s).liveHeartbeats =
      (setupSubscription sid s).heartbeatRef.toList := by
  cases h : s.channelRef with
  | none => simp [setupSubscription, h, h2]
  | some c =>
      have hl : (removeChannelIfAny s).liveHeartbeats =
          (removeChannelIfAny s).heartbeatRef.toList := by simp [h2]
      simp [setupSubscription, h, clearHeartbeat_live_of _ hl]

/-! ### Preservation of the resource invariant -/

lemma inv_of_eq_fields (s s' : ManagerState) (h : Inv s)
    (e1 : s'.openChannels = s.openChannels) (e2 : s'.channelRef = s.channelRef)
    (e3 : s'.liveHeartbeats = s.liveHeartbeats) (e4 : s'.heartbeatRef = s.heartbeatRef)
    (e5 : s'.pendingTimeouts = s.pendingTimeouts) (e6 : s'.timeoutRef = s.timeoutRef)
    (e7 : s'.nextId = s.nextId) : Inv s' := by
  unfold Inv at h ⊢
  rw [e1, e2, e3, e4, e5, e6, e7]
  exact h

lemma inv_clearHeartbeat (s : ManagerState) (h : Inv s) : Inv (clearHeartbeat s) := by
  obtain ⟨h1, h2, h3, h4, h5⟩ := h
  exact ⟨by simpa using h1, by simp [clearHeartbeat_live_of s h2],
    by simpa using h3, by simpa using h4, by simpa using h5⟩

lemma inv_clearReconnectTimeout (s : ManagerState) (h : Inv s) :
    Inv (clearReconnectTimeout s) := by
  obtain ⟨h1, h2, h3, h4, h5⟩ := h
  refine ⟨by simpa using h1, by simpa using h2, ?_, ?_, by simpa using h5⟩ <;>
    simp [clearReconnectTimeout_pending_of s h3]

lemma inv_removeChannelIfAny (s : ManagerState) (h : Inv s) :
    Inv (removeChannelIfAny s) := by
  obtain ⟨h1, h2, h3, h4, h5⟩ := h
  refine ⟨by simp [removeChannelIfAny_open_of s h1], by simpa using h2,
    by simpa using h3, by simpa using h4, ?_⟩
  simp [removeChannelIfAny_open_of s h1]

lemma inv_setupSubscription (sid : String) (s : ManagerState) (h : Inv s) :
    Inv (setupSubscription sid s) := by
  obtain ⟨h1, h2, h3, h4, h5⟩ := h
  refine ⟨?_, setupSubscription_live_of sid s h2, by simpa using h3,
    by simpa using h4, ?_⟩
  · simp [setupSubscription_open_of sid s h1]
  · simp [setupSubscription_open_of sid s h1]

lemma inv_startHeartbeat (s : ManagerState) (h : Inv s) : Inv (startHeartbeat s) := by
  obtain ⟨h1, h2, h3, h4, h5⟩ := h
  rw [startHeartbeat_eq s h2]
  exact ⟨h1, by simp, h3, h4, fun c hc => Nat.lt_succ_of_lt (h5 c hc)⟩

lemma inv_handleReconnection (sid : Option String) (s : ManagerState) (h : Inv s) :
    Inv (handleReconnection sid s) := by
  obtain ⟨h1, h2, h3, h4, h5⟩ := h
  cases sid with
  | none => exact ⟨h1, h2, h3, h4, h5⟩
  | some a =>
      by_cases hm : MAX_RETRY_ATTEMPTS ≤ s.retryCount
      · rw [handleReconnection_exhausted_eq _ s hm]
        exact ⟨h1, h2, h3, h4, h5⟩
      · rw [handleReconnection_schedule_eq a s h3 (by omega)]
        refine ⟨h1, h2, ?_, by simp, fun c hc => Nat.lt_succ_of_lt (h5 c hc)⟩
        intro p hp
        simp only [List.mem_singleton] at hp
        subst hp
        rfl

lemma inv_fireReconnectTimeout (sid : Option String) (s : ManagerState) (h : Inv s) :
    Inv (fireReconnectTimeout sid s) := by
  obtain ⟨h1, h2, h3, h4, h5⟩ := h
  cases hp : s.pendingTimeouts with
  | nil => simpa [fireReconnectTimeout, hp] using ⟨h1, h2, h3, h4, h5⟩
  | cons p rest =>
      have hrest : rest = [] := by
        rw [hp] at h4; simpa using h4
      subst hrest
      cases sid with
      | none =>
          simp only [fireReconnectTimeout, hp]
          exact ⟨h1, h2, by simp, by simp, h5⟩
      | some sid =>
          simp only [fireReconnectTimeout, hp]
          apply inv_setupSubscription
          apply inv_removeChannelIfAny
          exact ⟨h1, h2, by simp, by simp, h5⟩

lemma inv_reconnect (sid : Option String) (s : ManagerState) (h : Inv s) :
    Inv (reconnect sid s) := by
  cases sid with
  | none => exact h
  | some a =>
      have h0 : Inv { s with retryCount := 0, isConnected := false } :=
        inv_of_eq_fields s _ h rfl rfl rfl rfl rfl rfl rfl
      have hs := inv_setupSubscription a _
        (inv_clearHeartbeat _ (inv_removeChannelIfAny _ h0))
      simp only [reconnect]
      exact inv_of_eq_fields _ _ hs rfl rfl rfl rfl rfl rfl rfl

lemma inv_heartbeatTick (sid : Option String) (c f : Bool) (s : ManagerState)
    (h : Inv s) : Inv (heartbeatTick sid c f s) := by
  cases c with
  | true => simpa [heartbeatTick] using inv_clearHeartbeat s h
  | false =>
      cases f with
      | false => simpa [heartbeatTick] using h
      | true =>
          have hc := inv_clearHeartbeat s h
          have he : heartbeatTick sid false true s =
              handleReconnection sid { (clearHeartbeat s) with isConnected := false } := by
            simp [heartbeatTick]
          rw [he]
          exact inv_handleReconnection sid _
            (inv_of_eq_fields _ _ hc rfl rfl rfl rfl rfl rfl rfl)

lemma inv_onStatus (sid : Option String) (st : SubStatus) (s : ManagerState)
    (h : Inv s) : Inv (onStatus sid st s) := by
  cases st with
  | SUBSCRIBED =>
      exact inv_startHeartbeat _
        (inv_of_eq_fields _ _ h rfl rfl rfl rfl rfl rfl rfl)
  | CLOSED =>
      exact inv_handleReconnection sid _
        (inv_of_eq_fields _ _ h rfl rfl rfl rfl rfl rfl rfl)
  | CHANNEL_ERROR =>
      exact inv_handleReconnection sid _
        (inv_of_eq_fields _ _ h rfl rfl rfl rfl rfl rfl rfl)

lemma inv_onSystemError (sid : Option String) (s : ManagerState) (h : Inv s) :
    Inv (onSystemError sid s) :=
  inv_handleReconnection sid _
    (inv_of_eq_fields _ _ h rfl rfl rfl rfl rfl rfl rfl)

lemma inv_onMessageInsert (role : String) (s : ManagerState) (h : Inv s) :
    Inv (onMessageInsert role s).1 := by
  unfold onMessageInsert
  split <;> exact h

lemma inv_step (sid : Option String) (e : Event) (s : ManagerState) (h : Inv s) :
    Inv (step sid e s) := by
  cases e with
  | setup a => exact inv_setupSubscription a s h
  | status st => exact inv_onStatus sid st s h
  | sysError => exact inv_onSystemError sid s h
  | hbTick c f => exact inv_heartbeatTick sid c f s h
  | fireTimeout => exact inv_fireReconnectTimeout sid s h
  | reconnectReq => exact inv_reconnect sid s h
  | msgInsert role => exact inv_onMessageInsert role s h

lemma inv_run (sid : Option String) (tr : List Event) (s : ManagerState) (h : Inv s) :
    Inv (run sid tr s) := by
  induction tr generalizing s with
  | nil => exact h
  | cons e tr ih => exact ih _ (inv_step sid e s h)

lemma inv_initState : Inv initState := by
  refine ⟨rfl, rfl, ?_, ?_, ?_⟩ <;> simp [initState]

/-! ### No-op and composite characterisation lemmas -/

lemma clearReconnectTimeout_of_nil (s : ManagerState) (h : s.pendingTimeouts = []) :
    clearReconnectTimeout s = s := by
  cases ht : s.timeoutRef with
  | none => simp [clearReconnectTimeout, ht]
  | some t => ext <;> simp [clearReconnectTimeout, ht, h]

lemma clearHeartbeat_of_none (s : ManagerState) (h : s.heartbeatRef = none) :
    clearHeartbeat s = s := by
  simp [clearHeartbeat, h]

lemma removeChannelIfAny_of_none (s : ManagerState) (h : s.channelRef = none) :
    removeChannelIfAny s = s := by
  simp [removeChannelIfAny, h]

lemma setupSubscription_heartbeatRef_of_none (sid : String) (s : ManagerState)
    (h : s.heartbeatRef = none) :
    (setupSubscription sid s).heartbeatRef = none := by
  cases hc : s.channelRef <;> simp [setupSubscription, hc, h]

lemma reconnect_some_eq (sid : String) (s : ManagerState) (h : Inv s) :
    reconnect (some sid) s =
      { s with retryCount := 0, isConnected := false, channelRef := some s.nextId,
               heartbeatRef := none, openChannels := [s.nextId], liveHeartbeats := [],
               nextId := s.nextId + 1, toasts := s.toasts ++ [toastReconnecting],
               setupCalls := s.setupCalls + 1 } := by
  have hinv1 : Inv { s with retryCount := 0, isConnected := false } :=
    inv_of_eq_fields _ _ h rfl rfl rfl rfl rfl rfl rfl
  have hinv2 := inv_clearHeartbeat _ (inv_removeChannelIfAny _ hinv1)
  have ho := setupSubscription_open_of sid _ hinv2.1
  have hhb := setupSubscription_heartbeatRef_of_none sid
    (clearHeartbeat (removeChannelIfAny { s with retryCount := 0, isConnected := false }))
    (clearHeartbeat_heartbeatRef _)
  have hl := setupSubscription_live_of sid _ hinv2.2.1
  rw [hhb] at hl
  simp only [reconnect]
  ext <;> simp [ho, hl, hhb]

lemma cleanup_pending (s : ManagerState)
    (h3 : ∀ p ∈ s.pendingTimeouts, s.timeoutRef = some p.1) :
    (cleanup s).pendingTimeouts = [] := by
  simp [cleanup, clearReconnectTimeout_pending_of s h3]

lemma cleanup_live (s : ManagerState) (h : Inv s) :
    (cleanup s).liveHeartbeats = [] := by
  have h2 := (inv_clearReconnectTimeout s h).2.1
  simp [cleanup, clearHeartbeat_live_of _ h2]

lemma cleanup_open (s : ManagerState) (h : Inv s) :
    (cleanup s).openChannels = [] := by
  have h1 := (inv_clearHeartbeat _ (inv_clearReconnectTimeout s h)).1
  simp [cleanup, removeChannelIfAny_open_of _ h1]

lemma cleanup_idem_of (s : ManagerState) (h : Inv s) :
    cleanup (cleanup s) = cleanup s := by
  have hp : (cleanup s).pendingTimeouts = [] := cleanup_pending s h.2.2.1
  have hh : (cleanup s).heartbeatRef = none := by simp [cleanup]
  have hc : (cleanup s).channelRef = none := by simp [cleanup]
  conv_lhs => rw [cleanup]
  rw [clearReconnectTimeout_of_nil _ hp, clearHeartbeat_of_none _ hh,
    removeChannelIfAny_of_none _ hc]

example :
    (run (some "s1") [Event.setup "s1", Event.status SubStatus.SUBSCRIBED]
      initState).liveHeartbeats = [1] := by decide

example :
    (run (some "s1") [Event.setup "s1", Event.status SubStatus.CLOSED]
      initState).pendingTimeouts = [(1, 1000)] := by decide

/-! ### Concrete states used by witnesses and counterexamples -/

/-- State of a session-"s1" manager after one `setupSubscription` call:
channel 0 open, no heartbeat, no timers. -/
def afterSetup : ManagerState :=
  run (some "s1") [Event.setup "s1"] initState

/-- State after `setupSubscription` and a `SUBSCRIBED` status: connected,
heartbeat interval 1 live. -/
def afterSubscribed : ManagerState :=
  run (some "s1") [Event.setup "s1", Event.status SubStatus.SUBSCRIBED] initState

/-- State after `setupSubscription` and a `CLOSED` status: one pending
reconnect timeout (id 1, delay 1000 ms). -/
def afterClosed : ManagerState :=
  run (some "s1") [Event.setup "s1", Event.status SubStatus.CLOSED] initState

/-- A state whose retry counter has reached `MAX_RETRY_ATTEMPTS`. -/
def exhaustedState : ManagerState :=
  { initState with retryCount := MAX_RETRY_ATTEMPTS }

/-! ### C1 -/

/-- C1, counterexample.  With retry counter 0 and a known session id,
`handleReconnection` schedules the correct 1000 ms delay, but immediately
after scheduling the counter is still 0, not 0+1: the source increments it
only inside the timeout callback. -/
theorem C1_counterexample :
    (handleReconnection (some "s1") initState).pendingTimeouts = [(0, 1000)] ∧
    ¬ (handleReconnection (some "s1") initState).retryCount = 0 + 1 := by
  decide

/-- C1, amended.  For a reconnection scheduled while the retry counter is
N < 5 with a session id known, the scheduled delay is
`min(1000 * 2^N, 30000)` ms; the counter stays N immediately after
scheduling and equals N+1 immediately after the scheduled reconnection
fires (before the new setup completes). -/
theorem C1_backoff_delay (sid : String) (s : ManagerState) (h : Inv s)
    (h5 : s.retryCount < MAX_RETRY_ATTEMPTS) :
    (handleReconnection (some sid) s).pendingTimeouts =
      [(s.nextId, min (INITIAL_RETRY_DELAY * 2 ^ s.retryCount) MAX_RETRY_DELAY)] ∧
    (handleReconnection (some sid) s).retryCount = s.retryCount ∧
    (fireReconnectTimeout (some sid) (handleReconnection (some sid) s)).retryCount
      = s.retryCount + 1 := by
  rw [handleReconnection_schedule_eq sid s h.2.2.1 h5]
  refine ⟨rfl, rfl, ?_⟩
  simp [fireReconnectTimeout, backoffDelay]

/-- Witness for C1: the amended statement applied at the initial state. -/
theorem C1_backoff_delay_witness :
    Inv initState ∧ initState.retryCount < MAX_RETRY_ATTEMPTS ∧
    ((handleReconnection (some "s1") initState).pendingTimeouts =
      [(initState.nextId,
        min (INITIAL_RETRY_DELAY * 2 ^ initState.retryCount) MAX_RETRY_DELAY)] ∧
     (handleReconnection (some "s1") initState).retryCount = initState.retryCount ∧
     (fireReconnectTimeout (some "s1")
        (handleReconnection (some "s1") initState)).retryCount
       = initState.retryCount + 1) :=
  ⟨inv_initState, by decide,
    C1_backoff_delay "s1" initState inv_initState (by decide)⟩

/-! ### C2 -/

/-- C2, counterexample.  On a heartbeat probe tick that observes channel
state `closed` (in a subscribed, connected state), the claim demands the
connected flag be cleared and a reconnection scheduled; the source only
clears the heartbeat, leaving the flag `true` and scheduling nothing. -/
theorem C2_counterexample :
    ¬ ((heartbeatTick (some "s1") true false afterSubscribed).isConnected = false ∧
       (heartbeatTick (some "s1") true false afterSubscribed).pendingTimeouts ≠ []) := by
  decide

/-- C2, amended.  A failed heartbeat send cancels the heartbeat, clears the
connected flag and schedules a reconnection (with the usual backoff delay);
a probe tick observing channel state `closed` only cancels the heartbeat —
the connected flag, the pending reconnect timers and the toasts are
untouched. -/
theorem C2_heartbeat_paths (sid : String) (b : Bool) (s : ManagerState)
    (h : Inv s) (h5 : s.retryCount < MAX_RETRY_ATTEMPTS) :
    ((heartbeatTick (some sid) false true s).liveHeartbeats = [] ∧
     (heartbeatTick (some sid) false true s).isConnected = false ∧
     (heartbeatTick (some sid) false true s).pendingTimeouts =
       [(s.nextId, backoffDelay s.retryCount)]) ∧
    ((heartbeatTick (some sid) true b s).liveHeartbeats = [] ∧
     (heartbeatTick (some sid) true b s).isConnected = s.isConnected ∧
     (heartbeatTick (some sid) true b s).pendingTimeouts = s.pendingTimeouts ∧
     (heartbeatTick (some sid) true b s).toasts = s.toasts) := by
  have hclosed : heartbeatTick (some sid) true b s = clearHeartbeat s := by
    simp [heartbeatTick]
  have hfail : heartbeatTick (some sid) false true s =
      handleReconnection (some sid) { (clearHeartbeat s) with isConnected := false } := by
    simp [heartbeatTick]
  have h3' : ∀ p ∈ ({ (clearHeartbeat s) with isConnected := false } :
      ManagerState).pendingTimeouts,
      ({ (clearHeartbeat s) with isConnected := false } : ManagerState).timeoutRef
        = some p.1 := by
    simpa using h.2.2.1
  constructor
  · rw [hfail, handleReconnection_schedule_eq sid _ h3' (by simpa using h5)]
    refine ⟨?_, ?_, ?_⟩ <;> simp [clearHeartbeat_live_of s h.2.1]
  · rw [hclosed]
    exact ⟨clearHeartbeat_live_of s h.2.1, by simp, by simp, by simp⟩

/-- Witness for C2: the amended statement applied in the subscribed state. -/
theorem C2_heartbeat_paths_witness :
    Inv afterSubscribed ∧
    afterSubscribed.retryCount < MAX_RETRY_ATTEMPTS ∧
    (((heartbeatTick (some "s1") false true afterSubscribed).liveHeartbeats = [] ∧
      (heartbeatTick (some "s1") false true afterSubscribed).isConnected = false ∧
      (heartbeatTick (some "s1") false true afterSubscribed).pendingTimeouts =
        [(afterSubscribed.nextId, backoffDelay afterSubscribed.retryCount)]) ∧
     ((heartbeatTick (some "s1") true false afterSubscribed).liveHeartbeats = [] ∧
      (heartbeatTick (some "s1") true false afterSubscribed).isConnected
        = afterSubscribed.isConnected ∧
      (heartbeatTick (some "s1") true false afterSubscribed).pendingTimeouts
        = afterSubscribed.pendingTimeouts ∧
      (heartbeatTick (some "s1") true false afterSubscribed).toasts
        = afterSubscribed.toasts)) :=
  ⟨inv_run _ _ _ inv_initState, by decide,
    C2_heartbeat_paths "s1" false afterSubscribed (inv_run _ _ _ inv_initState)
      (by decide)⟩

/-! ### C3 -/

/-- C3, counterexample.  Delivering a `CLOSED` status in the subscribed
state (heartbeat interval 1 live) does not clear the heartbeat timer,
contrary to the claim: the interval survives the transition. -/
theorem C3_counterexample :
    ¬ ((onStatus (some "s1") SubStatus.CLOSED afterSubscribed).liveHeartbeats = []) := by
  decide

/-- C3, amended.  On a `CLOSED` status the manager marks the connection
disconnected and schedules a reconnection (no toast), but the heartbeat
timer is left untouched; it is cleared only later, by a probe observing the
closed channel or by the next setup/teardown. -/
theorem C3_closed_status (sid : String) (s : ManagerState) (h : Inv s)
    (h5 : s.retryCount < MAX_RETRY_ATTEMPTS) :
    (onStatus (some sid) SubStatus.CLOSED s).isConnected = false ∧
    (onStatus (some sid) SubStatus.CLOSED s).pendingTimeouts =
      [(s.nextId, backoffDelay s.retryCount)] ∧
    (onStatus (some sid) SubStatus.CLOSED s).liveHeartbeats = s.liveHeartbeats ∧
    (onStatus (some sid) SubStatus.CLOSED s).toasts = s.toasts := by
  have h3' : ∀ p ∈ ({ s with isConnected := false } : ManagerState).pendingTimeouts,
      ({ s with isConnected := false } : ManagerState).timeoutRef = some p.1 :=
    h.2.2.1
  simp only [onStatus]
  rw [handleReconnection_schedule_eq sid _ h3' h5]
  exact ⟨rfl, rfl, rfl, rfl⟩

/-- Witness for C3: the amended statement applied in the subscribed state. -/
theorem C3_closed_status_witness :
    Inv afterSubscribed ∧
    afterSubscribed.retryCount < MAX_RETRY_ATTEMPTS ∧
    ((onStatus (some "s1") SubStatus.CLOSED afterSubscribed).isConnected = false ∧
     (onStatus (some "s1") SubStatus.CLOSED afterSubscribed).pendingTimeouts =
       [(afterSubscribed.nextId, backoffDelay afterSubscribed.retryCount)] ∧
     (onStatus (some "s1") SubStatus.CLOSED afterSubscribed).liveHeartbeats
       = afterSubscribed.liveHeartbeats ∧
     (onStatus (some "s1") SubStatus.CLOSED afterSubscribed).toasts
       = afterSubscribed.toasts) :=
  ⟨inv_run _ _ _ inv_initState, by decide,
    C3_closed_status "s1" afterSubscribed (inv_run _ _ _ inv_initState) (by decide)⟩

/-! ### C4 -/

/-- C4.  When reconnection handling runs with the retry counter at
`MAX_RETRY_ATTEMPTS`, no new reconnection is scheduled (pending timers and
the timer ref are untouched), exactly one terminal toast is appended, the
counter is not changed — and a subsequent external `reconnect()` with a
session id resets the counter to 0 and performs exactly one new setup. -/
theorem C4_retry_exhaustion (sid : Option String) (sid2 : String)
    (s : ManagerState) (h : MAX_RETRY_ATTEMPTS ≤ s.retryCount) :
    (handleReconnection sid s).pendingTimeouts = s.pendingTimeouts ∧
    (handleReconnection sid s).timeoutRef = s.timeoutRef ∧
    (handleReconnection sid s).toasts = s.toasts ++ [toastTerminal] ∧
    (handleReconnection sid s).retryCount = s.retryCount ∧
    (reconnect (some sid2) (handleReconnection sid s)).retryCount = 0 ∧
    (reconnect (some sid2) (handleReconnection sid s)).setupCalls
      = s.setupCalls + 1 := by
  rw [handleReconnection_exhausted_eq sid s h]
  refine ⟨rfl, rfl, rfl, rfl, ?_, ?_⟩ <;> simp [reconnect]

/-- Witness for C4: applied to a state whose counter equals 5. -/
theorem C4_retry_exhaustion_witness :
    MAX_RETRY_ATTEMPTS ≤ exhaustedState.retryCount ∧
    ((handleReconnection (some "s1") exhaustedState).pendingTimeouts
       = exhaustedState.pendingTimeouts ∧
     (handleReconnection (some "s1") exhaustedState).timeoutRef
       = exhaustedState.timeoutRef ∧
     (handleReconnection (some "s1") exhaustedState).toasts
       = exhaustedState.toasts ++ [toastTerminal] ∧
     (handleReconnection (some "s1") exhaustedState).retryCount
       = exhaustedState.retryCount ∧
     (reconnect (some "s1") (handleReconnection (some "s1") exhaustedState)).retryCount
       = 0 ∧
     (reconnect (some "s1") (handleReconnection (some "s1") exhaustedState)).setupCalls
       = exhaustedState.setupCalls + 1) :=
  ⟨by decide, C4_retry_exhaustion (some "s1") "s1" exhaustedState (by decide)⟩

/-! ### C5 -/

/-- C5.  Along every event sequence (setup calls, status callbacks,
system errors, heartbeat ticks, timer expiries, manual reconnects, inbound
messages), at most one channel is open and at most one heartbeat interval
is live at any observed instant. -/
theorem C5_single_channel (sid : Option String) (tr : List Event) :
    (run sid tr initState).openChannels.length ≤ 1 ∧
    (run sid tr initState).liveHeartbeats.length ≤ 1 := by
  obtain ⟨h1, h2, -, -, -⟩ := inv_run sid tr initState inv_initState
  constructor
  · rw [h1]; cases (run sid tr initState).channelRef <;> simp
  · rw [h2]; cases (run sid tr initState).heartbeatRef <;> simp

/-! ### C6 -/

/-- C6.  `reconnect()` with a known session id resets the retry counter to
0, clears the connected flag, performs exactly one new setup invocation,
emits the reconnecting toast, tears down the previous handle (afterwards
exactly the fresh channel is open, and none of the previously open channels
remains), and leaves no live heartbeat; `reconnect()` with no session id is
a no-op. -/
theorem C6_manual_reconnect (sid : String) (s : ManagerState) (h : Inv s) :
    (reconnect (some sid) s).retryCount = 0 ∧
    (reconnect (some sid) s).isConnected = false ∧
    (reconnect (some sid) s).setupCalls = s.setupCalls + 1 ∧
    (reconnect (some sid) s).toasts = s.toasts ++ [toastReconnecting] ∧
    (reconnect (some sid) s).openChannels = [s.nextId] ∧
    (reconnect (some sid) s).liveHeartbeats = [] ∧
    (s.openChannels.all
      (fun c => !((reconnect (some sid) s).openChannels.contains c))) = true ∧
    reconnect none s = s := by
  rw [reconnect_some_eq sid s h]
  refine ⟨rfl, rfl, rfl, rfl, rfl, rfl, ?_, rfl⟩
  rw [List.all_eq_true]
  intro c hc
  have hlt := h.2.2.2.2 c hc
  simp [Nat.ne_of_lt hlt]

/-- Witness for C6: applied in the state holding open channel 0. -/
theorem C6_manual_reconnect_witness :
    Inv afterSetup ∧
    ((reconnect (some "s1") afterSetup).retryCount = 0 ∧
     (reconnect (some "s1") afterSetup).isConnected = false ∧
     (reconnect (some "s1") afterSetup).setupCalls = afterSetup.setupCalls + 1 ∧
     (reconnect (some "s1") afterSetup).toasts
       = afterSetup.toasts ++ [toastReconnecting] ∧
     (reconnect (some "s1") afterSetup).openChannels = [afterSetup.nextId] ∧
     (reconnect (some "s1") afterSetup).liveHeartbeats = [] ∧
     (afterSetup.openChannels.all
       (fun c => !((reconnect (some "s1") afterSetup).openChannels.contains c)))
       = true ∧
     reconnect none afterSetup = afterSetup) :=
  ⟨inv_run _ _ _ inv_initState,
    C6_manual_reconnect "s1" afterSetup (inv_run _ _ _ inv_initState)⟩

/-! ### C7 -/

/-- C7.  Along every event sequence, at most one pending scheduled
reconnection timeout exists at any observed instant (a newly scheduled one
always clears its predecessor first). -/
theorem C7_single_pending_timer (sid : Option String) (tr : List Event) :
    (run sid tr initState).pendingTimeouts.length ≤ 1 := by
  obtain ⟨-, -, -, h4, -⟩ := inv_run sid tr initState inv_initState
  exact h4

/-! ### C8 -/

/-- C8.  After the unmount cleanup following any event sequence, no pending
reconnect timeout, no live heartbeat interval and no open channel remain,
both refs are released, and the cleanup is idempotent. -/
theorem C8_disposal (sid : Option String) (tr : List Event) :
    (cleanup (run sid tr initState)).pendingTimeouts = [] ∧
    (cleanup (run sid tr initState)).liveHeartbeats = [] ∧
    (cleanup (run sid tr initState)).openChannels = [] ∧
    (cleanup (run sid tr initState)).channelRef = none ∧
    (cleanup (run sid tr initState)).heartbeatRef = none ∧
    cleanup (cleanup (run sid tr initState)) = cleanup (run sid tr initState) := by
  have h := inv_run sid tr initState inv_initState
  exact ⟨cleanup_pending _ h.2.2.1, cleanup_live _ h, cleanup_open _ h,
    by simp [cleanup], by simp [cleanup], cleanup_idem_of _ h⟩

/-! ### C9 -/

/-- C9.  An inbound message-insert payload whose role is outside the
allow-list `{user, assistant, owner}` is rejected by validation and leaves
the whole manager state (connected flag, retry counter, handle, timers,
toasts) unchanged. -/
theorem C9_invalid_role_dropped (role : String) (s : ManagerState)
    (h : allowedRoles.contains role = false) :
    (onMessageInsert role s).2 = false ∧ (onMessageInsert role s).1 = s := by
  have hm : role ∉ allowedRoles := by simpa using h
  simp [onMessageInsert, hm]

/-- Witness for C9: a `role = "system"` payload in the subscribed state. -/
theorem C9_invalid_role_dropped_witness :
    allowedRoles.contains "system" = false ∧
    ((onMessageInsert "system" afterSubscribed).2 = false ∧
     (onMessageInsert "system" afterSubscribed).1 = afterSubscribed) :=
  ⟨by decide, C9_invalid_role_dropped "system" afterSubscribed (by decide)⟩

/-! ### C10 -/

/-- C10.  `handleReconnection` with no session id emits the same terminal
"please refresh" toast even while the retry counter is strictly below
`MAX_RETRY_ATTEMPTS`, and changes nothing else (no timer is scheduled): the
missing-session case shares the branch and the notification of the
retry-exhaustion case. -/
theorem C10_missing_session_terminal (s : ManagerState)
    (h : s.retryCount < MAX_RETRY_ATTEMPTS) :
    handleReconnection none s = { s with toasts := s.toasts ++ [toastTerminal] } :=
  handleReconnection_none_eq s

/-- Witness for C10: applied at the initial state (counter 0 < 5). -/
theorem C10_missing_session_terminal_witness :
    initState.retryCount < MAX_RETRY_ATTEMPTS ∧
    handleReconnection none initState
      = { initState with toasts := initState.toasts ++ [toastTerminal] } :=
  ⟨by decide, C10_missing_session_terminal initState (by decide)⟩

end Menyapa
